import Mathlib

/-!
Shallow embedding of `src/discord_slash/context.py` (class `SlashContext`)
and proofs about it.

Modelling conventions:
- Python dictionaries that the class assembles for the wire are modelled as
  association lists `List (String × JValue)`, which keeps both the key set
  and the construction order.
- External SDK objects (`disnake.Embed`, `disnake.AllowedMentions`,
  `disnake.File`, guilds, members, channels) are modelled as opaque records;
  their `to_dict()` methods, which belong to the external SDK, are modelled
  as returning an opaque external dictionary value `ExtDict`.
- Python truthiness is modelled explicitly where the code relies on it:
  `None` and the empty list are falsy, SDK objects are truthy.  The `embeds`
  parameter is type-annotated as a list but the code defends against
  non-list values with `isinstance`, so its argument type also carries a
  non-list alternative with an explicit truthiness bit.
- `await`/`create_task` effects are modelled by returning, in program order,
  the list of calls made to the external HTTP client `_http.post`.
- `bot.wait_for("message", timeout=3, check=check)` is modelled by a list of
  time-stamped candidate messages from the environment: the first message
  satisfying `check` is delivered if it arrives strictly before the timeout,
  otherwise the wait times out (`asyncio.TimeoutError`, which the code
  suppresses).
-/

/-- An opaque dictionary produced by the external SDK (`to_dict()` results). -/
structure ExtDict where
  tag : Nat
deriving DecidableEq, Repr

/-- JSON-ish values appearing in the bodies this module builds. -/
inductive JValue where
  | s (v : String)
  | i (v : Int)
  | b (v : Bool)
  | dicts (v : List ExtDict)
  | dict (v : ExtDict)
  | emptyDict
deriving DecidableEq, Repr

/-- A JSON object body, as an ordered association list. -/
abbrev JBody := List (String × JValue)

/-- External SDK object: `disnake.Embed`.  `to_dict` is the external method. -/
structure Embed where
  payload : ExtDict
deriving DecidableEq, Repr

def Embed.to_dict (e : Embed) : ExtDict := e.payload

/-- External SDK object: `disnake.AllowedMentions`. -/
structure AllowedMentions where
  payload : ExtDict
deriving DecidableEq, Repr

def AllowedMentions.to_dict (a : AllowedMentions) : ExtDict := a.payload

/-- External SDK object: `disnake.File`. -/
structure File where
  tag : Nat
deriving DecidableEq, Repr

/-- External SDK object: `disnake.Member` (only the id is read). -/
structure Member where
  id : Int
deriving DecidableEq, Repr

/-- External SDK object: `disnake.TextChannel` (only the id is read). -/
structure Channel where
  id : Int
deriving DecidableEq, Repr

/-- External SDK object: `disnake.Guild`, with its member and channel caches. -/
structure Guild where
  id : Int
  members : List Member
  channels : List Channel
deriving DecidableEq, Repr

/-- External SDK lookup `Guild.get_member`: `None` when not cached. -/
def Guild.get_member (g : Guild) (uid : Int) : Option Member :=
  g.members.find? (fun m => m.id == uid)

/-- External SDK lookup `Guild.get_channel`: `None` when not cached. -/
def Guild.get_channel (g : Guild) (cid : Int) : Option Channel :=
  g.channels.find? (fun c => c.id == cid)

/-- External SDK object: the `disnake.Client` / `commands.BotClient` instance. -/
structure BotClient where
  guilds : List Guild
  allowed_mentions : Option AllowedMentions
deriving DecidableEq, Repr

/-- External SDK lookup `BotClient.get_guild`: `None` when not cached. -/
def BotClient.get_guild (b : BotClient) (gid : Int) : Option Guild :=
  b.guilds.find? (fun g => g.id == gid)

/-- A field that holds either the resolved SDK object or the raw integer id,
mirroring the `typing.Union[..., int]` attributes of `SlashContext`. -/
inductive ObjOr (α : Type) where
  | obj (a : α)
  | id (n : Int)
deriving DecidableEq, Repr

/-- A gateway message, as far as the `check` closure in `respond` reads it. -/
structure Message where
  author_id : Int
  channel_id : Int
  type : Nat
  content : String
deriving DecidableEq, Repr

/-- The inbound interaction payload `_json`, restricted to the fields
`__init__` reads.  The snowflakes that the code passes through `int(...)`
are already carried as integers; `id` and `data.id` are kept as the strings
the wire carries, since the code never converts them. -/
structure Payload where
  token : String
  id : String
  data_name : String
  data_id : String
  guild_id : Int
  member_user_id : Int
  channel_id : Int
deriving DecidableEq, Repr

/-- One call to the external HTTP client `_http.post`, with its arguments in
order: the JSON body, the `wait` flag, the interaction id, the interaction
token, the initial-response flag (the literal `True` passed by `respond`),
and the `files` keyword argument. -/
structure Post where
  body : JBody
  wait : Bool
  interaction_id : String
  token : String
  initial : Bool
  files : Option (List File)
deriving DecidableEq, Repr

/-- The state of a `SlashContext` instance (the `_http` client and `logger`
are modelled by the effect lists the operations return). -/
structure SlashContext where
  token : String
  message : Option Message
  name : String
  subcommand_name : Option String
  subcommand_group : Option String
  interaction_id : String
  command_id : String
  bot : BotClient
  sent : Bool
  guild : ObjOr Guild
  author : ObjOr Member
  channel : ObjOr Channel
deriving DecidableEq, Repr

/-- `SlashContext.__init__`: extracts the payload fields into attributes and
resolves guild, author and channel through the SDK caches, falling back to
the raw integer ids when resolution fails. -/
def SlashContext.init (bot : BotClient) (p : Payload) : SlashContext :=
  let guildObj : Option Guild := bot.get_guild p.guild_id
  let authorObj : Option Member :=
    match guildObj with
    | some g => g.get_member p.member_user_id
    | none => none
  let channelObj : Option Channel :=
    match guildObj with
    | some g => g.get_channel p.channel_id
    | none => none
  { token := p.token
    message := none
    name := p.data_name
    subcommand_name := none
    subcommand_group := none
    interaction_id := p.id
    command_id := p.data_id
    bot := bot
    sent := false
    guild := match guildObj with
      | some g => .obj g
      | none => .id p.guild_id
    author := match authorObj with
      | some m => .obj m
      | none => .id p.member_user_id
    channel := match channelObj with
      | some c => .obj c
      | none => .id p.channel_id }

/-- The `timeout=3` argument of `bot.wait_for` in `respond`. -/
def respond_timeout : Nat := 3

/-- Model of `bot.wait_for("message", timeout, check)` over a list of
time-stamped candidate messages: the first message satisfying `check` is
delivered when it arrives strictly before the timeout; otherwise the wait
ends in `asyncio.TimeoutError`, modelled as `none`. -/
def wait_for_message (timeout : Nat) (check : Message → Bool)
    (arrivals : List (Nat × Message)) : Option Message :=
  match arrivals.find? (fun a => check a.2) with
  | some a => if a.1 < timeout then some a.2 else none
  | none => none

/-- The idiom `x if isinstance(x, int) else x.id` applied to the author. -/
def memberId : ObjOr Member → Int
  | .id n => n
  | .obj a => a.id

/-- The idiom `x if isinstance(x, int) else x.id` applied to the channel. -/
def channelId : ObjOr Channel → Int
  | .id n => n
  | .obj c => c.id

/-- Python `str.startswith`, modelled over the character lists. -/
def pyStartsWith (s pre : String) : Bool :=
  s.data.take pre.data.length == pre.data

/-- The `check` closure defined inside `respond`. -/
def SlashContext.respond_check (ctx : SlashContext) (message : Message) : Bool :=
  let user_id : Int := memberId ctx.author
  let is_author := message.author_id == user_id
  let channel_id : Int := channelId ctx.channel
  let is_channel := channel_id == message.channel_id
  let is_user_input := message.type == 20
  let is_correct_command :=
    pyStartsWith message.content ("</" ++ ctx.name ++ ":" ++ ctx.command_id ++ ">")
  is_author && is_channel && is_user_input && is_correct_command

/-- Result of `respond`: the updated context and the posts made, in order. -/
structure RespondResult where
  ctx : SlashContext
  posts : List Post
deriving DecidableEq, Repr

/-- `SlashContext.respond`: posts the invoke response (`type` 2 when `eat`,
else 5) through `_http.post`, sets `sent`, and, when not eating the input,
waits up to `respond_timeout` for the triggering user message and stores it
in `message` (a timeout is suppressed and leaves `message` unchanged). -/
def SlashContext.respond (ctx : SlashContext) (eat : Bool)
    (arrivals : List (Nat × Message)) : RespondResult :=
  let base : JBody := [("type", .i (if eat then 2 else 5))]
  let post : Post :=
    { body := base, wait := false, interaction_id := ctx.interaction_id
      token := ctx.token, initial := true, files := none }
  let ctx := { ctx with sent := true }
  if eat then
    { ctx := ctx, posts := [post] }
  else
    match wait_for_message respond_timeout ctx.respond_check arrivals with
    | some m => { ctx := { ctx with message := some m }, posts := [post] }
    | none => { ctx := ctx, posts := [post] }

/-- The `content` argument of `send`.  It is annotated `str`, but the code
explicitly guards against integer values (the Release 1.0.9 migration trap),
so the model carries both possibilities. -/
inductive ContentArg where
  | str (s : String)
  | int (n : Int)
deriving DecidableEq, Repr

/-- The JSON value a content argument contributes to a body. -/
def ContentArg.toJ : ContentArg → JValue
  | .str s => .s s
  | .int n => .i n

/-- `isinstance(content, int) and 2 <= content <= 5`. -/
def ContentArg.isRewriteTrap : ContentArg → Bool
  | .str _ => false
  | .int n => 2 ≤ n && n ≤ 5

/-- The `embeds` argument of `send`.  It is annotated as a list of embeds,
but the code checks `isinstance(embeds, list)` at runtime, so the model also
admits a non-list Python value, carrying only its truthiness. -/
inductive EmbedsArg where
  | list (xs : List Embed)
  | pyOther (truthy : Bool)
deriving DecidableEq, Repr

/-- Python truthiness of an `embeds` value: an empty list is falsy. -/
def EmbedsArg.isTruthy : EmbedsArg → Bool
  | .list xs => !xs.isEmpty
  | .pyOther t => t

/-- Python truthiness of the optional `embeds` argument (`None` is falsy). -/
def optEmbedsTruthy : Option EmbedsArg → Bool
  | none => false
  | some e => e.isTruthy

/-- Python truthiness of the optional `files` argument: `None` and the empty
list are falsy. -/
def optFilesTruthy : Option (List File) → Bool
  | none => false
  | some xs => !xs.isEmpty

/-- The keyword arguments of `send`, with their Python defaults. -/
structure SendArgs where
  content : ContentArg := .str ""
  wait : Bool := false
  embed : Option Embed := none
  embeds : Option EmbedsArg := none
  tts : Bool := false
  file : Option File := none
  files : Option (List File) := none
  allowed_mentions : Option AllowedMentions := none
  hidden : Bool := false
deriving DecidableEq, Repr

/-- Errors raised by `send`; the payload is a short tag for the
`error.IncorrectFormat` message raised at that site. -/
inductive SendOutcome where
  | ok
  | incorrectFormat (msg : String)
deriving DecidableEq, Repr

/-- Result of `send`: the updated context, the `_http.post` calls made in
order, the `logger.warning` messages emitted in order, and the outcome. -/
structure SendResult where
  ctx : SlashContext
  posts : List Post
  warnings : List String
  outcome : SendOutcome
deriving DecidableEq, Repr

/-- `warning` logged when `send` is entered with `sent` still false. -/
def respondFirstWarning (name : String) : String :=
  "At command `" ++ name ++ "`: It is highly recommended to call `.respond()` first!"

/-- `warning` logged when `hidden` is used together with an embed. -/
def hiddenEmbedWarning : String := "Embed is not supported for `hidden`!"

/-- `SlashContext.send_hidden`: builds the ephemeral body (`flags` 64) and
returns the `_http.post` call it makes. -/
def SlashContext.send_hidden (ctx : SlashContext) (content : ContentArg) : Post :=
  { body := [("content", content.toJ), ("flags", .i 64)]
    wait := false
    interaction_id := ctx.interaction_id
    token := ctx.token
    initial := false
    files := none }

/-- The `allowed_mentions` entry of the followup body:
`allowed_mentions.to_dict() if allowed_mentions else
 self.bot.allowed_mentions.to_dict() if self.bot.allowed_mentions else {}`. -/
def mentionsEntry (am : Option AllowedMentions) (bot : BotClient) : JValue :=
  match am with
  | some a => .dict a.to_dict
  | none =>
    match bot.allowed_mentions with
    | some a => .dict a.to_dict
    | none => .emptyDict

/-- The `embeds` entry of the followup body:
`[x.to_dict() for x in embeds] if embeds else []`.  When this is evaluated
the value is either absent, falsy, or a validated list, so the non-list
constructor (which the earlier `isinstance` check rules out when truthy)
contributes the empty list. -/
def embedsEntry : Option EmbedsArg → List ExtDict
  | some (.list xs) => if xs.isEmpty then [] else xs.map Embed.to_dict
  | some (.pyOther _) => []
  | none => []

/-- The tail of `send` after embed validation: the `file`/`files` check, the
body assembly and the final post. -/
def SlashContext.sendBody (ctx : SlashContext) (a : SendArgs)
    (embeds : Option EmbedsArg) (posts : List Post)
    (warnings : List String) : SendResult :=
  if a.file.isSome && optFilesTruthy a.files then
    { ctx := ctx, posts := posts, warnings := warnings
      outcome := .incorrectFormat "both file and files" }
  else
  let files : Option (List File) :=
    match a.file with
    | some f => some [f]
    | none => a.files
  let base : JBody :=
    [("content", a.content.toJ)
    , ("tts", .b a.tts)
    , ("embeds", .dicts (embedsEntry embeds))
    , ("allowed_mentions", mentionsEntry a.allowed_mentions ctx.bot)]
  let post : Post :=
    { body := base, wait := a.wait, interaction_id := ctx.interaction_id
      token := ctx.token, initial := false, files := files }
  { ctx := ctx, posts := posts ++ [post], warnings := warnings, outcome := .ok }

/-- `SlashContext.send`, translated clause by clause from the source:
the Release 1.0.9 integer-content trap, the implicit `respond()` when `sent`
is still false, the `hidden` early return, the `embed`/`embeds` and
`file`/`files` mutual-exclusion checks, the list/length validation of
`embeds`, the body assembly and the final `_http.post`.  (`delete_after`
only spawns a deletion task through the returned `SlashMessage`, which
belongs to the missing `model` module, so it does not appear among the
posts this function itself makes.) -/
def SlashContext.send (ctx : SlashContext) (a : SendArgs)
    (arrivals : List (Nat × Message)) : SendResult :=
  if a.content.isRewriteTrap then
    { ctx := ctx, posts := [], warnings := []
      outcome := .incorrectFormat "send rewritten at Release 1.0.9" }
  else
  let ack : SlashContext × List Post × List String :=
    if !ctx.sent then
      let r := ctx.respond false arrivals
      (r.ctx, r.posts, [respondFirstWarning ctx.name])
    else (ctx, [], [])
  let ctx := ack.1
  let posts := ack.2.1
  let warnings := ack.2.2
  if a.hidden then
    let warnings :=
      if optEmbedsTruthy a.embeds || a.embed.isSome then
        warnings ++ [hiddenEmbedWarning]
      else warnings
    { ctx := ctx, posts := posts ++ [ctx.send_hidden a.content]
      warnings := warnings, outcome := .ok }
  else
  if a.embed.isSome && optEmbedsTruthy a.embeds then
    { ctx := ctx, posts := posts, warnings := warnings
      outcome := .incorrectFormat "both embed and embeds" }
  else
  let embeds : Option EmbedsArg :=
    match a.embed with
    | some e => some (.list [e])
    | none => a.embeds
  if optEmbedsTruthy embeds then
    match embeds with
    | some (.pyOther _) =>
      { ctx := ctx, posts := posts, warnings := warnings
        outcome := .incorrectFormat "Provide a list of embeds." }
    | some (.list xs) =>
      if xs.length > 10 then
        { ctx := ctx, posts := posts, warnings := warnings
          outcome := .incorrectFormat "Do not provide more than 10 embeds." }
      else SlashContext.sendBody ctx a embeds posts warnings
    | none =>
      -- unreachable: `none` is falsy
      SlashContext.sendBody ctx a embeds posts warnings
  else SlashContext.sendBody ctx a embeds posts warnings


/-! ### Concrete fixtures used by witnesses and counterexamples -/

/-- A guild with one cached member and one cached channel. -/
def fixGuild : Guild := { id := 7, members := [{ id := 11 }], channels := [{ id := 21 }] }

/-- A bot whose cache holds `fixGuild` and that has no default mentions. -/
def fixBot : BotClient := { guilds := [fixGuild], allowed_mentions := none }

/-- A well-formed inbound interaction payload. -/
def fixPayload : Payload :=
  { token := "tok", id := "900", data_name := "cmd", data_id := "777"
    guild_id := 7, member_user_id := 11, channel_id := 21 }

/-- The context built from the concrete fixtures. -/
def fixCtx : SlashContext := SlashContext.init fixBot fixPayload

/-- `fixCtx` after the initial response has been sent. -/
def fixCtxSent : SlashContext := { fixCtx with sent := true }

/-- A concrete embed. -/
def fixEmbed1 : Embed := { payload := { tag := 1 } }

/-- Another concrete embed. -/
def fixEmbed2 : Embed := { payload := { tag := 2 } }

/-- A concrete file. -/
def fixFile : File := { tag := 31 }

/-- A gateway message that satisfies the `respond` check for `fixCtx`. -/
def fixMsg : Message :=
  { author_id := 11, channel_id := 21, type := 20, content := "</cmd:777> hi" }


/-! ### Helper lemmas -/

/-- Closed form of `respond`: `sent` is set, the acknowledgement body is
posted, and `message` is updated from the wait only when not eating. -/
theorem respond_eq (ctx : SlashContext) (eat : Bool)
    (arrivals : List (Nat × Message)) :
    ctx.respond eat arrivals =
      { ctx :=
          { ctx with
            sent := true
            message :=
              if eat then ctx.message
              else
                match wait_for_message respond_timeout
                    (SlashContext.respond_check { ctx with sent := true })
                    arrivals with
                | some m => some m
                | none => ctx.message }
        posts := [{ body := [("type", .i (if eat then 2 else 5))], wait := false
                    interaction_id := ctx.interaction_id, token := ctx.token
                    initial := true, files := none }] } := by
  unfold SlashContext.respond
  cases eat <;> dsimp only
  · cases hw : wait_for_message respond_timeout
        (SlashContext.respond_check { ctx with sent := true }) arrivals <;>
      simp [hw]
  · rfl

theorem respond_ctx_sent (ctx : SlashContext) (eat : Bool)
    (arrivals : List (Nat × Message)) :
    (ctx.respond eat arrivals).ctx.sent = true := by
  rw [respond_eq]

theorem respond_ctx_interaction_id (ctx : SlashContext) (eat : Bool)
    (arrivals : List (Nat × Message)) :
    (ctx.respond eat arrivals).ctx.interaction_id = ctx.interaction_id := by
  rw [respond_eq]

theorem respond_ctx_token (ctx : SlashContext) (eat : Bool)
    (arrivals : List (Nat × Message)) :
    (ctx.respond eat arrivals).ctx.token = ctx.token := by
  rw [respond_eq]

theorem respond_ctx_bot (ctx : SlashContext) (eat : Bool)
    (arrivals : List (Nat × Message)) :
    (ctx.respond eat arrivals).ctx.bot = ctx.bot := by
  rw [respond_eq]

theorem respond_ctx_name (ctx : SlashContext) (eat : Bool)
    (arrivals : List (Nat × Message)) :
    (ctx.respond eat arrivals).ctx.name = ctx.name := by
  rw [respond_eq]

theorem respond_posts_eq (ctx : SlashContext) (eat : Bool)
    (arrivals : List (Nat × Message)) :
    (ctx.respond eat arrivals).posts =
      [{ body := [("type", .i (if eat then 2 else 5))], wait := false
         interaction_id := ctx.interaction_id, token := ctx.token
         initial := true, files := none }] := by
  rw [respond_eq]

theorem sendBody_ctx_eq (ctx : SlashContext) (a : SendArgs)
    (embeds : Option EmbedsArg) (posts : List Post) (warnings : List String) :
    (SlashContext.sendBody ctx a embeds posts warnings).ctx = ctx := by
  unfold SlashContext.sendBody
  split <;> rfl

/-! ### The claims -/

/-- C5: for every inbound payload accepted by `__init__`, the fields are
extracted into plain attributes: `name` from `_json["data"]["name"]`,
`interaction_id` from `_json["id"]`, `command_id` from `_json["data"]["id"]`,
the token stored privately, `message` is `None`, `sent` is `False`, and
`guild`, `author` and `channel` each hold the resolved SDK object or, when
resolution fails, the corresponding integer id from the payload. -/
theorem C5_init_extracts_fields (bot : BotClient) (p : Payload) :
    (SlashContext.init bot p).name = p.data_name ∧
    (SlashContext.init bot p).interaction_id = p.id ∧
    (SlashContext.init bot p).command_id = p.data_id ∧
    (SlashContext.init bot p).token = p.token ∧
    (SlashContext.init bot p).message = none ∧
    (SlashContext.init bot p).sent = false ∧
    (SlashContext.init bot p).guild =
      (match bot.get_guild p.guild_id with
       | some g => .obj g
       | none => .id p.guild_id) ∧
    (SlashContext.init bot p).author =
      (match bot.get_guild p.guild_id with
       | some g =>
         match g.get_member p.member_user_id with
         | some m => .obj m
         | none => .id p.member_user_id
       | none => .id p.member_user_id) ∧
    (SlashContext.init bot p).channel =
      (match bot.get_guild p.guild_id with
       | some g =>
         match g.get_channel p.channel_id with
         | some c => .obj c
         | none => .id p.channel_id
       | none => .id p.channel_id) := by
  cases hg : bot.get_guild p.guild_id with
  | none => simp [SlashContext.init, hg]
  | some g =>
    cases hm : g.get_member p.member_user_id <;>
      cases hc : g.get_channel p.channel_id <;>
        simp [SlashContext.init, hg, hm, hc]

/-- C3: `sent` is the only response-tracking state: it is false at
construction, `respond` sets it to true, and no operation sets it back to
false (`send` can only turn it on, and `send_hidden` does not touch the
state at all). -/
theorem C3_sent_flag_lifecycle (bot : BotClient) (p : Payload)
    (ctx : SlashContext) (eat : Bool) (arrivals : List (Nat × Message))
    (a : SendArgs) :
    (SlashContext.init bot p).sent = false ∧
    (ctx.respond eat arrivals).ctx.sent = true ∧
    (ctx.sent = true → (ctx.send a arrivals).ctx.sent = true) := by
  refine ⟨rfl, respond_ctx_sent ctx eat arrivals, fun h => ?_⟩
  unfold SlashContext.send
  split
  · exact h
  · simp only [h, Bool.not_true, Bool.false_eq_true, if_false]
    split
    · exact h
    · split
      · exact h
      · split
        · split
          · exact h
          · split
            · exact h
            · rw [sendBody_ctx_eq]; exact h
          · rw [sendBody_ctx_eq]; exact h
        · rw [sendBody_ctx_eq]; exact h

/-- Closed witness for the hypothesis of the third conjunct of C3. -/
theorem C3_sent_flag_lifecycle_witness :
    (SlashContext.init fixBot fixPayload).sent = false ∧
    (fixCtxSent.respond false []).ctx.sent = true ∧
    (fixCtxSent.send {} []).ctx.sent = true := by
  have h := C3_sent_flag_lifecycle fixBot fixPayload fixCtxSent false [] {}
  exact ⟨h.1, h.2.1, h.2.2 (by decide)⟩

/-- The `check` closure, written out: `respond_check` tests exactly the
author, the channel, the message type 20, and the `</name:command_id>`
content head. -/
theorem respond_check_inline (ctx : SlashContext) :
    ctx.respond_check =
      fun m =>
        (m.author_id == memberId ctx.author) &&
        (channelId ctx.channel == m.channel_id) &&
        (m.type == 20) &&
        pyStartsWith m.content ("</" ++ ctx.name ++ ":" ++ ctx.command_id ++ ">") := rfl

/-- The `check` closure does not read `sent`. -/
theorem respond_check_sent_update (ctx : SlashContext) (b : Bool) :
    SlashContext.respond_check { ctx with sent := b } = ctx.respond_check := rfl

/-- C6: `respond` optionally correlates the triggering user message.  With
`eat = False` it waits up to the 3-second timeout (expiry suppressed) for a
message whose author matches the context author, whose channel matches the
context channel, whose type is 20 and whose content starts with
`</name:command_id>`, and stores it in `message`; on expiry `message` is
left unchanged, and with `eat = True` it is left unchanged as well. -/
theorem C6_respond_message_correlation (ctx : SlashContext)
    (arrivals : List (Nat × Message)) :
    (ctx.respond true arrivals).ctx.message = ctx.message ∧
    (∀ m, wait_for_message 3
        (fun m =>
          (m.author_id == memberId ctx.author) &&
          (channelId ctx.channel == m.channel_id) &&
          (m.type == 20) &&
          pyStartsWith m.content ("</" ++ ctx.name ++ ":" ++ ctx.command_id ++ ">"))
        arrivals = some m →
      (ctx.respond false arrivals).ctx.message = some m) ∧
    (wait_for_message 3
        (fun m =>
          (m.author_id == memberId ctx.author) &&
          (channelId ctx.channel == m.channel_id) &&
          (m.type == 20) &&
          pyStartsWith m.content ("</" ++ ctx.name ++ ":" ++ ctx.command_id ++ ">"))
        arrivals = none →
      (ctx.respond false arrivals).ctx.message = ctx.message) := by
  refine ⟨by rw [respond_eq]; rfl, fun m hm => ?_, fun hn => ?_⟩
  · rw [respond_eq]
    show (if (false : Bool) = true then ctx.message
      else match wait_for_message respond_timeout
          (SlashContext.respond_check { ctx with sent := true }) arrivals with
        | some m => some m
        | none => ctx.message) = some m
    rw [if_neg (by simp), respond_check_sent_update, respond_check_inline]
    unfold respond_timeout
    rw [hm]
  · rw [respond_eq]
    show (if (false : Bool) = true then ctx.message
      else match wait_for_message respond_timeout
          (SlashContext.respond_check { ctx with sent := true }) arrivals with
        | some m => some m
        | none => ctx.message) = ctx.message
    rw [if_neg (by simp), respond_check_sent_update, respond_check_inline]
    unfold respond_timeout
    rw [hn]

/-- Closed witness for C6: at the concrete fixtures, a matching message
arriving at second 1 is correlated and stored. -/
theorem C6_respond_message_correlation_witness :
    (fixCtx.respond false [(1, fixMsg)]).ctx.message = some fixMsg :=
  (C6_respond_message_correlation fixCtx [(1, fixMsg)]).2.1 fixMsg (by decide)

/-- C7: every outbound request goes through `_http.post` of the supplied
client, with the stored interaction id and token: `respond` posts the
`{"type": 2}` (eat) or `{"type": 5}` body, and `send` / `send_hidden` post
their assembled bodies the same way; no other transport appears in the
model (the posts list enumerates every outbound call). -/
theorem C7_http_delegation (ctx : SlashContext) (eat : Bool)
    (arrivals : List (Nat × Message)) (a : SendArgs) (content : ContentArg) :
    (ctx.respond eat arrivals).posts =
      [{ body := [("type", .i (if eat then 2 else 5))], wait := false
         interaction_id := ctx.interaction_id, token := ctx.token
         initial := true, files := none }] ∧
    ((ctx.send a arrivals).posts.all fun p =>
      p.interaction_id == ctx.interaction_id && p.token == ctx.token) = true ∧
    (ctx.send_hidden content).interaction_id = ctx.interaction_id ∧
    (ctx.send_hidden content).token = ctx.token := by
  refine ⟨respond_posts_eq ctx eat arrivals, ?_, rfl, rfl⟩
  unfold SlashContext.send SlashContext.sendBody
  split
  · rfl
  · dsimp only
    repeat' split
    all_goals
      simp [SlashContext.send_hidden, respond_posts_eq,
        respond_ctx_interaction_id, respond_ctx_token]

/-- C4: every call to `send` with `hidden=True` (and a content that does not
trip the Release 1.0.9 integer guard) succeeds and posts, as its followup,
exactly the body with the keys `content` and `flags` 64; the embed, embeds,
file, files, tts and allowed_mentions arguments are all dropped, and the
only extra effect is the embed warning, logged exactly when an embed
argument was given (besides the respond-first warning when `sent` was still
false). -/
theorem C4_hidden_ephemeral_body (ctx : SlashContext) (a : SendArgs)
    (arrivals : List (Nat × Message))
    (hh : a.hidden = true) (hc : a.content.isRewriteTrap = false) :
    (ctx.send a arrivals).outcome = .ok ∧
    (ctx.send a arrivals).posts.getLast? = some
      { body := [("content", a.content.toJ), ("flags", .i 64)], wait := false
        interaction_id := ctx.interaction_id, token := ctx.token
        initial := false, files := none } ∧
    (ctx.send a arrivals).warnings =
      (if ctx.sent then [] else [respondFirstWarning ctx.name]) ++
      (if optEmbedsTruthy a.embeds || a.embed.isSome then [hiddenEmbedWarning] else []) := by
  cases hs : ctx.sent <;>
    simp [SlashContext.send, hh, hc, hs, SlashContext.send_hidden,
      respond_posts_eq, respond_ctx_interaction_id, respond_ctx_token,
      List.getLast?_concat]
  all_goals try (split <;> simp)

/-- Closed witness for C4 at the concrete fixtures: a hidden call carrying
an embed, files, tts and mentions still posts only `content` and `flags`. -/
theorem C4_hidden_ephemeral_body_witness :
    ((fixCtxSent.send
        { content := .str "secret", hidden := true, embed := some fixEmbed1
          embeds := some (.list [fixEmbed2]), tts := true, file := some fixFile
          files := some [fixFile]
          allowed_mentions := some { payload := { tag := 9 } } } []).outcome
      = .ok) ∧
    ((fixCtxSent.send
        { content := .str "secret", hidden := true, embed := some fixEmbed1
          embeds := some (.list [fixEmbed2]), tts := true, file := some fixFile
          files := some [fixFile]
          allowed_mentions := some { payload := { tag := 9 } } } []).posts.getLast?
      = some
        { body := [("content", .s "secret"), ("flags", .i 64)], wait := false
          interaction_id := "900", token := "tok"
          initial := false, files := none }) := by
  have h := C4_hidden_ephemeral_body fixCtxSent
    { content := .str "secret", hidden := true, embed := some fixEmbed1
      embeds := some (.list [fixEmbed2]), tts := true, file := some fixFile
      files := some [fixFile]
      allowed_mentions := some { payload := { tag := 9 } } } [] rfl rfl
  exact ⟨h.1, by rw [h.2.1]; decide⟩

/-- The embeds entry of a validated list is just the mapped `to_dict`s. -/
theorem embedsEntry_list (xs : List Embed) :
    embedsEntry (some (.list xs)) = xs.map Embed.to_dict := by
  cases xs <;> simp [embedsEntry]

/-- C2: every call to `send` with `hidden=False` that passes validation
posts, as its followup, a body with exactly the keys `content`, `tts`,
`embeds` and `allowed_mentions`, where `embeds` is the list of `to_dict()`
of the given embeds (empty when none were given) and `allowed_mentions`
comes from the argument, else the bot default, else the empty dict.  (The
`embeds` argument is taken in its annotated list form here; the non-list
escape hatch is the subject of C8.) -/
theorem C2_visible_followup_body (ctx : SlashContext) (a : SendArgs)
    (arrivals : List (Nat × Message))
    (hh : a.hidden = false)
    (ht : a.embeds = none ∨ ∃ xs, a.embeds = some (.list xs))
    (hok : (ctx.send a arrivals).outcome = .ok) :
    (ctx.send a arrivals).posts.getLast? = some
      { body :=
          [("content", a.content.toJ)
          , ("tts", .b a.tts)
          , ("embeds", .dicts ((match a.embed, a.embeds with
              | some e, _ => [e]
              | none, some (.list xs) => xs
              | none, _ => []).map Embed.to_dict))
          , ("allowed_mentions",
              (match a.allowed_mentions with
              | some am => .dict am.to_dict
              | none =>
                match ctx.bot.allowed_mentions with
                | some bm => .dict bm.to_dict
                | none => .emptyDict))]
        wait := a.wait
        interaction_id := ctx.interaction_id
        token := ctx.token
        initial := false
        files := (match a.file with | some f => some [f] | none => a.files) } := by
  have hc : a.content.isRewriteTrap = false := by
    cases h : a.content.isRewriteTrap
    · rfl
    · simp [SlashContext.send, h] at hok
  rcases ht with h0 | ⟨xs, h0⟩ <;>
    cases he : a.embed <;>
      (try cases hxs : xs) <;>
        cases hs : ctx.sent <;>
            by_cases hlen : (match a.embeds with
              | some (.list ys) => ys.length
              | _ => 0) > 10 <;>
              simp_all [SlashContext.send, SlashContext.sendBody,
                SlashContext.send_hidden, embedsEntry, mentionsEntry,
                respond_posts_eq, respond_ctx_interaction_id, respond_ctx_token,
                respond_ctx_bot, List.getLast?_concat, optEmbedsTruthy,
                EmbedsArg.isTruthy]
  all_goals
    repeat'
      first
      | rfl
      | omega
      | (split at hok <;> simp_all [List.getLast?_concat])
      | (split <;> simp_all [List.getLast?_concat])

/-- Closed witness for C2 at the concrete fixtures. -/
theorem C2_visible_followup_body_witness :
    (fixCtxSent.send
        { content := .str "hello", tts := true
          embeds := some (.list [fixEmbed1, fixEmbed2])
          allowed_mentions := some { payload := { tag := 5 } } } []).posts.getLast?
      = some
        { body :=
            [("content", .s "hello"), ("tts", .b true)
            , ("embeds", .dicts [{ tag := 1 }, { tag := 2 }])
            , ("allowed_mentions", .dict { tag := 5 })]
          wait := false, interaction_id := "900", token := "tok"
          initial := false, files := none } := by
  rw [C2_visible_followup_body fixCtxSent
    { content := .str "hello", tts := true
      embeds := some (.list [fixEmbed1, fixEmbed2])
      allowed_mentions := some { payload := { tag := 5 } } } [] rfl
    (Or.inr ⟨[fixEmbed1, fixEmbed2], rfl⟩) (by decide)]
  decide

/-- C1 is false as stated: `send` does not raise `IncorrectFormat` for every
call in which both `embed` and `embeds` (or both `file` and `files`) are
non-`None`.  First input: with `hidden=True` the hidden branch returns before
the mutual-exclusion checks, so both embed arguments pass silently.  Second
and third inputs: with `embeds=[]` (resp. `files=[]`), the non-`None` empty
list is falsy in `if embed and embeds`, so no error is raised either. -/
theorem C1_counterexample :
    ((fixCtxSent.send
        { hidden := true, embed := some fixEmbed1
          embeds := some (.list [fixEmbed2]) } []).outcome = .ok) ∧
    ((fixCtxSent.send
        { embed := some fixEmbed1, embeds := some (.list []) } []).outcome = .ok) ∧
    ((fixCtxSent.send
        { file := some fixFile, files := some [] } []).outcome = .ok) := by
  refine ⟨by decide, by decide, by decide⟩

/-- C1 (amended): for every call to `send` with `hidden` false in which both
`embed` and `embeds` are truthy (given and non-empty), or both `file` and
`files` are truthy, `send` raises `IncorrectFormat`, and the followup JSON
body is never constructed or posted: every post made by the call is the
`respond` acknowledgement. -/
theorem C1_amended (ctx : SlashContext) (a : SendArgs)
    (arrivals : List (Nat × Message))
    (hh : a.hidden = false)
    (hconf : ((a.embed.isSome && optEmbedsTruthy a.embeds)
           || (a.file.isSome && optFilesTruthy a.files)) = true) :
    (∃ m, (ctx.send a arrivals).outcome = .incorrectFormat m) ∧
    ∀ p ∈ (ctx.send a arrivals).posts, p.body = [("type", .i 5)] := by
  cases hb : (a.embed.isSome && optEmbedsTruthy a.embeds) <;>
    cases htrap : a.content.isRewriteTrap <;>
      cases hs : ctx.sent <;>
        (try simp_all [SlashContext.send, SlashContext.sendBody, hh, respond_posts_eq])
  all_goals
    repeat'
      first
      | rfl
      | omega
      | (split <;> (try simp_all [respond_posts_eq]))

/-- Closed witness for the amended C1. -/
theorem C1_amended_witness :
    (∃ m, (fixCtxSent.send
        { embed := some fixEmbed1, embeds := some (.list [fixEmbed2]) } []).outcome
      = .incorrectFormat m) ∧
    ∀ p ∈ (fixCtxSent.send
        { embed := some fixEmbed1, embeds := some (.list [fixEmbed2]) } []).posts,
      p.body = [("type", .i 5)] :=
  C1_amended fixCtxSent
    { embed := some fixEmbed1, embeds := some (.list [fixEmbed2]) } [] rfl (by decide)

/-- C8 is false as stated: a provided `embeds` that is a falsy non-list
Python value (for example `0`) skips the `isinstance` validation entirely,
because the guard `if embeds:` is false, so no `IncorrectFormat` is raised
and the call succeeds. -/
theorem C8_counterexample :
    (fixCtxSent.send { embeds := some (.pyOther false) } []).outcome = .ok := by
  decide

/-- C8 (amended): with `hidden=False`, no singular `embed`, a content that
passes the integer guard and no file conflict, a provided `embeds` raises
`IncorrectFormat` when it is a truthy non-list, raises `IncorrectFormat`
when it is a list of more than 10 embeds, and is accepted otherwise; a falsy
`embeds` value (absent, the empty list, or a falsy non-list) skips the
validation and is accepted. -/
theorem C8_amended (ctx : SlashContext) (a : SendArgs)
    (arrivals : List (Nat × Message))
    (hh : a.hidden = false) (he : a.embed = none)
    (hc : a.content.isRewriteTrap = false)
    (hf : (a.file.isSome && optFilesTruthy a.files) = false) :
    (a.embeds = some (.pyOther true) →
      (ctx.send a arrivals).outcome = .incorrectFormat "Provide a list of embeds.") ∧
    (∀ xs, a.embeds = some (.list xs) →
      (ctx.send a arrivals).outcome =
        (if xs.length > 10 then .incorrectFormat "Do not provide more than 10 embeds."
         else .ok)) ∧
    ((a.embeds = none ∨ a.embeds = some (.pyOther false)) →
      (ctx.send a arrivals).outcome = .ok) := by
  refine ⟨fun h0 => ?_, fun xs h0 => ?_, fun h0 => ?_⟩
  · cases hs : ctx.sent <;>
      (try simp_all [SlashContext.send, SlashContext.sendBody])
    all_goals
      repeat'
        first
        | rfl
        | omega
        | (split at hf <;> (try simp_all [optEmbedsTruthy, EmbedsArg.isTruthy]))
        | (split <;> (try simp_all [optEmbedsTruthy, EmbedsArg.isTruthy]))
  · cases hxs : xs <;>
      cases hs : ctx.sent <;>
        by_cases hlen : (match a.embeds with
          | some (.list ys) => ys.length
          | _ => 0) > 10 <;>
          (try simp_all [SlashContext.send, SlashContext.sendBody])
    all_goals
      repeat'
        first
        | rfl
        | omega
        | (split at hf <;> (try simp_all [optEmbedsTruthy, EmbedsArg.isTruthy]))
        | (split <;> (try simp_all [optEmbedsTruthy, EmbedsArg.isTruthy]))
  · rcases h0 with h0 | h0 <;>
      cases hs : ctx.sent <;>
        (try simp_all [SlashContext.send, SlashContext.sendBody])
    all_goals
      repeat'
        first
        | rfl
        | omega
        | (split at hf <;> (try simp_all [optEmbedsTruthy, EmbedsArg.isTruthy]))
        | (split <;> (try simp_all [optEmbedsTruthy, EmbedsArg.isTruthy]))

/-- Closed witness for the amended C8: 11 embeds are rejected, one embed is
accepted. -/
theorem C8_amended_witness :
    (fixCtxSent.send
        { embeds := some (.list (List.replicate 11 fixEmbed1)) } []).outcome
      = .incorrectFormat "Do not provide more than 10 embeds." ∧
    (fixCtxSent.send { embeds := some (.list [fixEmbed1]) } []).outcome = .ok := by
  have h1 := (C8_amended fixCtxSent
    { embeds := some (.list (List.replicate 11 fixEmbed1)) } []
    rfl rfl rfl rfl).2.1 (List.replicate 11 fixEmbed1) rfl
  have h2 := (C8_amended fixCtxSent
    { embeds := some (.list [fixEmbed1]) } []
    rfl rfl rfl rfl).2.1 [fixEmbed1] rfl
  constructor
  · rw [h1]; decide
  · rw [h2]; decide

/-- C9: the singular and plural argument forms are interchangeable: for any
embed `e`, `send(embed=e)` produces exactly the same result (state, posts,
warnings and outcome) as `send(embeds=[e])`, and for any file `f`,
`send(file=f)` the same as `send(files=[f])`, whatever the other
arguments. -/
theorem C9_singular_plural_equiv (ctx : SlashContext) (a : SendArgs)
    (arrivals : List (Nat × Message)) (e : Embed) (f : File) :
    ctx.send { a with embed := some e, embeds := none } arrivals
      = ctx.send { a with embed := none, embeds := some (.list [e]) } arrivals ∧
    ctx.send { a with file := some f, files := none } arrivals
      = ctx.send { a with file := none, files := some [f] } arrivals := by
  constructor <;>
    cases htrap : a.content.isRewriteTrap <;>
      cases hs : ctx.sent <;>
        cases hh : a.hidden <;>
          (try simp_all [SlashContext.send, SlashContext.sendBody,
            SlashContext.send_hidden, optEmbedsTruthy, EmbedsArg.isTruthy,
            optFilesTruthy, embedsEntry, respond_posts_eq])
  all_goals
    repeat'
      first
      | rfl
      | omega
      | (split <;> (try simp_all [optEmbedsTruthy, EmbedsArg.isTruthy,
          optFilesTruthy, embedsEntry]))

/-- C10: entering `send` with `hidden=False` while `sent` is still false
first runs `respond()` (posting the type-5 acknowledgement and setting
`sent`) and only then validates the mutually exclusive arguments, so when
the validation raises `IncorrectFormat` the state is not rolled back: `sent`
stays true and the acknowledgement post has already been made. -/
theorem C10_ack_not_rolled_back (ctx : SlashContext) (a : SendArgs)
    (arrivals : List (Nat × Message))
    (hs : ctx.sent = false) (hh : a.hidden = false)
    (hc : a.content.isRewriteTrap = false)
    (hconf : ((a.embed.isSome && optEmbedsTruthy a.embeds)
           || (a.file.isSome && optFilesTruthy a.files)) = true) :
    (∃ m, (ctx.send a arrivals).outcome = .incorrectFormat m) ∧
    (ctx.send a arrivals).ctx.sent = true ∧
    (ctx.send a arrivals).posts.head? = some
      { body := [("type", .i 5)], wait := false
        interaction_id := ctx.interaction_id, token := ctx.token
        initial := true, files := none } := by
  cases hb : (a.embed.isSome && optEmbedsTruthy a.embeds) <;>
    (try simp_all [SlashContext.send, SlashContext.sendBody, respond_posts_eq,
      respond_ctx_sent])
  all_goals
    repeat'
      first
      | rfl
      | omega
      | (split <;> (try simp_all [respond_posts_eq, respond_ctx_sent]))

/-- Closed witness for C10 at the concrete fixtures (`fixCtx.sent` is
false, and both `embed` and `embeds` are given non-empty). -/
theorem C10_ack_not_rolled_back_witness :
    (∃ m, (fixCtx.send
        { embed := some fixEmbed1, embeds := some (.list [fixEmbed2]) } []).outcome
      = .incorrectFormat m) ∧
    (fixCtx.send
        { embed := some fixEmbed1, embeds := some (.list [fixEmbed2]) } []).ctx.sent
      = true ∧
    (fixCtx.send
        { embed := some fixEmbed1, embeds := some (.list [fixEmbed2]) } []).posts.head?
      = some
        { body := [("type", .i 5)], wait := false
          interaction_id := "900", token := "tok"
          initial := true, files := none } := by
  have h := C10_ack_not_rolled_back fixCtx
    { embed := some fixEmbed1, embeds := some (.list [fixEmbed2]) } []
    rfl rfl rfl (by decide)
  exact ⟨h.1, h.2.1, by rw [h.2.2]; decide⟩
